import Mathlib

/-!
Verification of the pattern-detection and scoring engine of the
code-debt-detective tool (`code_debt_detective.py`).

The Python source is embedded shallowly:

* `DebtSeverity`, `CodeSmell` and `DebtMetric` mirror the dataclasses of the
  source (`confidence_score` and `current_value` are Python floats holding
  only short decimal literals and small integers, embedded as exact
  rationals; every comparison the source performs on them is exact at the
  values that occur).
* `calculate_health_score` embeds `CodeDebtDetective._calculate_health_score`
  and `console_health_score` embeds the inline score computation of
  `display_console_report`.
* A small Python abstract-syntax-tree type `PyStmt` embeds the statement
  shapes the structural analyzer inspects; `analyze_python_file` embeds
  `CodeAnalyzer._analyze_python_file`, taking the outcome of `ast.parse` as
  an `Option` input (parsing raw text is outside the embedding).
* `analyze_general_patterns` embeds `CodeAnalyzer._analyze_general_patterns`
  over the list of the content lines (Python splits the content at the newline character).
* `get_debt_trends_of_commits` embeds the metric-deriving tail of
  `GitAnalyzer.get_debt_trends` over the commit lines parsed from the
  version-control tool output.

`ast.walk` of the source enumerates nodes breadth-first; the embedding
`walk_list` enumerates the same nodes depth-first.  Every property proved
below is insensitive to the enumeration order (memberships and counts of
emitted findings), so the two traversals are interchangeable here.
-/

namespace CodeDebtDetective

/-- Severity enumeration of the source (`DebtSeverity`). -/
inductive DebtSeverity where
  | low
  | medium
  | high
  | critical
deriving DecidableEq, Repr

/-- The `CodeSmell` dataclass of the source. -/
structure CodeSmell where
  file_path : String
  line_number : Nat
  smell_type : String
  description : String
  severity : DebtSeverity
  suggested_fix : String
  confidence_score : ℚ
deriving DecidableEq, Repr

/-- The `DebtMetric` dataclass of the source. -/
structure DebtMetric where
  metric_name : String
  current_value : ℚ
  trend : String
  risk_level : DebtSeverity
  impact_description : String
deriving DecidableEq, Repr

/-- Per-finding penalty of `_calculate_health_score`: the `if/elif/else`
chain adds 10 for critical, 5 for high, 2 for medium and 1 otherwise
(the remaining severity being low). -/
def smell_penalty (smell : CodeSmell) : Int :=
  match smell.severity with
  | .critical => 10
  | .high => 5
  | .medium => 2
  | .low => 1

/-- `CodeDebtDetective._calculate_health_score`: 100 for an empty finding
list, otherwise `max(0, 100 - penalty)` where `penalty` is the sum of the
per-finding penalties. -/
def calculate_health_score (smells : List CodeSmell) : Int :=
  if smells.isEmpty then 100
  else max 0 (100 - (smells.map smell_penalty).sum)

/-- The `severity_counts` tally of `display_console_report`. -/
def severity_count (smells : List CodeSmell) (sev : DebtSeverity) : Nat :=
  smells.countP (fun s => s.severity == sev)

/-- The inline health-score computation of `display_console_report`:
100 when there are no findings, otherwise `max(0, 100 - penalty)` with
`penalty = 10*critical + 5*high + 2*medium + 1*low`. -/
def console_health_score (smells : List CodeSmell) : Int :=
  if smells.length = 0 then 100
  else max 0 (100 -
    ((severity_count smells .critical : Int) * 10 +
     (severity_count smells .high : Int) * 5 +
     (severity_count smells .medium : Int) * 2 +
     (severity_count smells .low : Int) * 1))

/-- A concrete critical finding, used to instantiate proved statements. -/
def sample_critical_smell : CodeSmell :=
  { file_path := "a.py", line_number := 1, smell_type := "syntax_error",
    description := "File contains syntax errors",
    severity := .critical,
    suggested_fix := "Fix syntax errors before proceeding",
    confidence_score := 1 }

/-- A concrete low-severity finding, used to instantiate proved statements. -/
def sample_low_smell : CodeSmell :=
  { file_path := "a.py", line_number := 3, smell_type := "long_line",
    description := "Line length: 130 characters (>120)",
    severity := .low,
    suggested_fix := "Break line or refactor for readability",
    confidence_score := 0.9 }

theorem smell_penalty_nonneg (sm : CodeSmell) : 0 ≤ smell_penalty sm := by
  unfold smell_penalty
  cases sm.severity <;> norm_num

theorem penalty_sum_nonneg (smells : List CodeSmell) :
    0 ≤ (smells.map smell_penalty).sum := by
  apply List.sum_nonneg
  intro x hx
  obtain ⟨sm, _, rfl⟩ := List.mem_map.mp hx
  exact smell_penalty_nonneg sm

theorem penalty_sum_counts (smells : List CodeSmell) :
    (smells.map smell_penalty).sum =
      (severity_count smells .critical : Int) * 10 +
      (severity_count smells .high : Int) * 5 +
      (severity_count smells .medium : Int) * 2 +
      (severity_count smells .low : Int) * 1 := by
  induction smells with
  | nil => simp [severity_count]
  | cons sm rest ih =>
    simp only [List.map_cons, List.sum_cons, severity_count, List.countP_cons] at *
    cases h : sm.severity <;>
      simp [smell_penalty, h, ih, severity_count] <;> ring

/-- Claim C1: the health score of a finding list is
`max(0, 100 - Σ penalty)` with penalties 10/5/2/1 for
critical/high/medium/low, the empty list scores 100, every score lies in
`[0, 100]`, and the console report computes the same score from its
severity tallies. -/
theorem c1_health_score_formula :
    (∀ smells : List CodeSmell,
        calculate_health_score smells =
          max 0 (100 - (smells.map smell_penalty).sum))
    ∧ (∀ sm : CodeSmell,
        (sm.severity = .critical → smell_penalty sm = 10)
        ∧ (sm.severity = .high → smell_penalty sm = 5)
        ∧ (sm.severity = .medium → smell_penalty sm = 2)
        ∧ (sm.severity = .low → smell_penalty sm = 1))
    ∧ calculate_health_score [] = 100
    ∧ (∀ smells : List CodeSmell,
        0 ≤ calculate_health_score smells ∧ calculate_health_score smells ≤ 100)
    ∧ (∀ smells : List CodeSmell,
        console_health_score smells = calculate_health_score smells) := by
  refine ⟨?_, ?_, by simp [calculate_health_score], ?_, ?_⟩
  · intro smells
    unfold calculate_health_score
    cases smells with
    | nil => simp
    | cons a l => simp
  · intro sm
    refine ⟨?_, ?_, ?_, ?_⟩ <;> intro h <;> simp [smell_penalty, h]
  · intro smells
    unfold calculate_health_score
    split
    · norm_num
    · constructor
      · exact le_max_left 0 _
      · have h := penalty_sum_nonneg smells
        have : (100 : Int) - (smells.map smell_penalty).sum ≤ 100 := by omega
        omega
  · intro smells
    unfold console_health_score calculate_health_score
    rw [penalty_sum_counts]
    cases smells <;> simp

/-- Instantiation of `c1_health_score_formula` at concrete findings. -/
theorem c1_health_score_formula_witness :
    smell_penalty sample_critical_smell = 10
    ∧ calculate_health_score [] = 100
    ∧ 0 ≤ calculate_health_score [sample_critical_smell, sample_low_smell] :=
  ⟨(c1_health_score_formula.2.1 sample_critical_smell).1 rfl,
   c1_health_score_formula.2.2.1,
   (c1_health_score_formula.2.2.2.1 [sample_critical_smell, sample_low_smell]).1⟩

/-- Claim C8: the health score never increases when a finding is appended,
and it is invariant under permutation of the finding list. -/
theorem c8_health_score_monotone_perm :
    (∀ (smells : List CodeSmell) (sm : CodeSmell),
        calculate_health_score (smells ++ [sm]) ≤ calculate_health_score smells)
    ∧ (∀ smells₁ smells₂ : List CodeSmell, smells₁.Perm smells₂ →
        calculate_health_score smells₁ = calculate_health_score smells₂) := by
  constructor
  · intro smells sm
    unfold calculate_health_score
    cases smells with
    | nil =>
      have h := smell_penalty_nonneg sm
      simp only [List.nil_append, List.isEmpty_cons, List.isEmpty_nil]
      simp only [if_true, if_false, Bool.false_eq_true]
      have : (100 : Int) - smell_penalty sm ≤ 100 := by omega
      simp [List.map_cons, List.sum_cons]
      omega
    | cons a l =>
      simp only [List.cons_append, List.isEmpty_cons]
      have h := smell_penalty_nonneg sm
      simp only [List.map_append, List.sum_append, List.map_cons, List.map_nil,
        List.sum_cons, List.sum_nil, List.map, Bool.false_eq_true, if_false]
      apply max_le_max le_rfl
      omega
  · intro smells₁ smells₂ hperm
    unfold calculate_health_score
    have hsum : (smells₁.map smell_penalty).sum = (smells₂.map smell_penalty).sum :=
      (hperm.map smell_penalty).sum_eq
    have hemp : smells₁.isEmpty = smells₂.isEmpty := by
      cases smells₁ with
      | nil => simp [hperm.nil_eq.symm]
      | cons a l =>
        cases smells₂ with
        | nil => exact absurd hperm.symm.nil_eq (by simp)
        | cons b m => rfl
    rw [hsum, hemp]

/-- Instantiation of `c8_health_score_monotone_perm` at concrete findings. -/
theorem c8_health_score_monotone_perm_witness :
    calculate_health_score ([] ++ [sample_critical_smell]) ≤ calculate_health_score []
    ∧ calculate_health_score [sample_critical_smell, sample_low_smell] =
        calculate_health_score [sample_low_smell, sample_critical_smell] :=
  ⟨c8_health_score_monotone_perm.1 [] sample_critical_smell,
   c8_health_score_monotone_perm.2 _ _ (List.Perm.swap _ _ _)⟩

/-! ### Python string primitives

Python string operations used by the analyzers, embedded over `List Char`
(`str.lower`, `str.strip`, substring containment `in`, `str.split`). -/

/-- Containment of `kw` as a contiguous substring (Python `kw in s`). -/
def is_substring (kw : List Char) : List Char → Bool
  | [] => kw.isEmpty
  | c :: rest => kw.isPrefixOf (c :: rest) || is_substring kw rest

/-- Python `str.lower`. -/
def py_lower (s : String) : String := String.mk (s.toList.map Char.toLower)

/-- Python `str.strip`: drop leading and trailing whitespace. -/
def py_strip (s : String) : String :=
  String.mk
    (((s.toList.dropWhile Char.isWhitespace).reverse.dropWhile Char.isWhitespace).reverse)

/-- Splitting of the characters of a string at a separator character,
accumulating the current piece (Python `str.split(sep)`). -/
def split_char_aux (sep : Char) : List Char → List Char → List (List Char)
  | [], acc => [acc.reverse]
  | c :: rest, acc =>
      if c == sep then acc.reverse :: split_char_aux sep rest []
      else split_char_aux sep rest (c :: acc)

/-- Python `s.split(sep)` for a one-character separator. -/
def py_split (s : String) (sep : Char) : List String :=
  (split_char_aux sep s.toList []).map String.mk

/-! ### Textual analyzer (`_analyze_general_patterns`)

The analyzer receives the list of the content lines (the split of the content at the newline character). -/

/-- The `large_file` finding of `_analyze_general_patterns`. -/
def large_file_smell (fp : String) (count : Nat) : CodeSmell :=
  { file_path := fp, line_number := 1, smell_type := "large_file",
    description := "File has " ++ toString count ++ " lines (>500)",
    severity := .medium,
    suggested_fix := "Consider splitting into multiple files",
    confidence_score := 0.8 }

/-- The `technical_debt_comment` finding of `_analyze_general_patterns`. -/
def technical_debt_smell (fp : String) (i : Nat) (line : String) : CodeSmell :=
  { file_path := fp, line_number := i, smell_type := "technical_debt_comment",
    description := "Technical debt marker: " ++ py_strip line,
    severity := .low,
    suggested_fix := "Address the noted issue",
    confidence_score := 0.6 }

/-- The `long_line` finding of `_analyze_general_patterns`. -/
def long_line_smell (fp : String) (i : Nat) (len : Nat) : CodeSmell :=
  { file_path := fp, line_number := i, smell_type := "long_line",
    description := "Line length: " ++ toString len ++ " characters (>120)",
    severity := .low,
    suggested_fix := "Break line or refactor for readability",
    confidence_score := 0.9 }

/-- The debt-marker test of the source, a case-insensitive regular-expression search for TODO, FIXME, HACK or XXX:
the lowercased line contains one of the four markers as a substring. -/
def has_debt_marker (line : String) : Bool :=
  let low := line.toList.map Char.toLower
  is_substring "todo".toList low || is_substring "fixme".toList low ||
    is_substring "hack".toList low || is_substring "xxx".toList low

/-- The file-size rule of `_analyze_general_patterns`: one `large_file`
finding when the line count exceeds 500. -/
def large_file_check (fp : String) (lines : List String) : List CodeSmell :=
  if lines.length > 500 then [large_file_smell fp lines.length] else []

/-- The debt-marker loop of `_analyze_general_patterns`
(`for i, line in enumerate(lines, 1)`), entered at `n = 1`. -/
def debt_comment_smells (fp : String) : Nat → List String → List CodeSmell
  | _, [] => []
  | n, line :: rest =>
      (if has_debt_marker line then [technical_debt_smell fp n line] else [])
        ++ debt_comment_smells fp (n + 1) rest

/-- The long-line loop of `_analyze_general_patterns`
(`for i, line in enumerate(lines, 1)`), entered at `n = 1`. -/
def long_line_smells (fp : String) : Nat → List String → List CodeSmell
  | _, [] => []
  | n, line :: rest =>
      (if line.length > 120 then [long_line_smell fp n line.length] else [])
        ++ long_line_smells fp (n + 1) rest

/-- `CodeAnalyzer._analyze_general_patterns`: size rule, then debt-marker
loop, then long-line loop, over the content lines. -/
def analyze_general_patterns (fp : String) (lines : List String) : List CodeSmell :=
  large_file_check fp lines ++ debt_comment_smells fp 1 lines
    ++ long_line_smells fp 1 lines

theorem debt_smells_shape (fp : String) :
    ∀ (lines : List String) (n : Nat) (s : CodeSmell),
      s ∈ debt_comment_smells fp n lines →
      s.smell_type = "technical_debt_comment" ∧ n ≤ s.line_number ∧
        s.severity = .low ∧ s.confidence_score = 0.6 := by
  intro lines
  induction lines with
  | nil => simp [debt_comment_smells]
  | cons line rest ih =>
    intro n s hs
    simp only [debt_comment_smells, List.mem_append] at hs
    rcases hs with h | h
    · by_cases hc : has_debt_marker line
      · simp only [hc, if_true, List.mem_singleton] at h
        subst h
        exact ⟨rfl, le_refl n, rfl, rfl⟩
      · simp [hc] at h
    · obtain ⟨h1, h2, h3, h4⟩ := ih (n + 1) s h
      exact ⟨h1, by omega, h3, h4⟩

theorem long_line_smells_shape (fp : String) :
    ∀ (lines : List String) (n : Nat) (s : CodeSmell),
      s ∈ long_line_smells fp n lines →
      s.smell_type = "long_line" ∧ n ≤ s.line_number ∧
        s.severity = .low ∧ s.confidence_score = 0.9 := by
  intro lines
  induction lines with
  | nil => simp [long_line_smells]
  | cons line rest ih =>
    intro n s hs
    simp only [long_line_smells, List.mem_append] at hs
    rcases hs with h | h
    · by_cases hc : line.length > 120
      · simp only [hc, if_true, List.mem_singleton] at h
        subst h
        exact ⟨rfl, le_refl n, rfl, rfl⟩
      · simp [hc] at h
    · obtain ⟨h1, h2, h3, h4⟩ := ih (n + 1) s h
      exact ⟨h1, by omega, h3, h4⟩

theorem large_file_check_shape (fp : String) (lines : List String) (s : CodeSmell)
    (hs : s ∈ large_file_check fp lines) :
    s = large_file_smell fp lines.length ∧ lines.length > 500 := by
  unfold large_file_check at hs
  by_cases hc : lines.length > 500
  · simp only [hc, if_true, List.mem_singleton] at hs
    exact ⟨hs, hc⟩
  · simp [hc] at hs

/-- Membership in the textual findings determines kind, severity and
confidence to be one of the three textual triples. -/
theorem general_patterns_shape (fp : String) (lines : List String) (s : CodeSmell)
    (hs : s ∈ analyze_general_patterns fp lines) :
    (s.smell_type = "large_file" ∧ s.severity = .medium ∧ s.confidence_score = 0.8)
    ∨ (s.smell_type = "technical_debt_comment" ∧ s.severity = .low ∧ s.confidence_score = 0.6)
    ∨ (s.smell_type = "long_line" ∧ s.severity = .low ∧ s.confidence_score = 0.9) := by
  simp only [analyze_general_patterns, List.mem_append] at hs
  rcases hs with (h | h) | h
  · obtain ⟨rfl, -⟩ := large_file_check_shape fp lines s h
    exact Or.inl ⟨rfl, rfl, rfl⟩
  · obtain ⟨h1, -, h3, h4⟩ := debt_smells_shape fp lines 1 s h
    exact Or.inr (Or.inl ⟨h1, h3, h4⟩)
  · obtain ⟨h1, -, h3, h4⟩ := long_line_smells_shape fp lines 1 s h
    exact Or.inr (Or.inr ⟨h1, h3, h4⟩)

theorem debt_smells_filter (fp : String) :
    ∀ (lines : List String) (n i : Nat) (h : i < lines.length),
      (debt_comment_smells fp n lines).filter
          (fun s => s.smell_type == "technical_debt_comment" && s.line_number == n + i)
        = if has_debt_marker (lines.get ⟨i, h⟩)
          then [technical_debt_smell fp (n + i) (lines.get ⟨i, h⟩)] else [] := by
  intro lines
  induction lines with
  | nil => intro n i h; simp at h
  | cons line rest ih =>
    intro n i h
    cases i with
    | zero =>
      have hrest : (debt_comment_smells fp (n + 1) rest).filter
          (fun s => s.smell_type == "technical_debt_comment" && s.line_number == n + 0) = [] := by
        rw [List.filter_eq_nil_iff]
        intro s hs
        obtain ⟨-, h2, -, -⟩ := debt_smells_shape fp rest (n + 1) s hs
        simp only [Bool.and_eq_true, beq_iff_eq]
        omega
      by_cases hc : has_debt_marker line
      · simp only [debt_comment_smells, hc, if_true, List.filter_append, hrest,
          List.append_nil, List.get, List.filter]
        simp [technical_debt_smell, hc]
      · simp only [debt_comment_smells, hc, if_false, List.nil_append, hrest,
          Bool.false_eq_true, List.get]
    | succ j =>
      have hn : n + (j + 1) = (n + 1) + j := by omega
      have hj : j < rest.length := by simpa using h
      have hhead : (if has_debt_marker line then [technical_debt_smell fp n line] else []).filter
          (fun s => s.smell_type == "technical_debt_comment" && s.line_number == n + (j + 1)) = [] := by
        rw [List.filter_eq_nil_iff]
        intro s hs
        by_cases hc : has_debt_marker line
        · simp only [hc, if_true, List.mem_singleton] at hs
          subst hs
          simp only [technical_debt_smell, Bool.and_eq_true, beq_iff_eq]
          omega
        · simp [hc] at hs
      simp only [debt_comment_smells, List.filter_append, hhead, List.nil_append]
      rw [hn]
      exact ih (n + 1) j hj

theorem long_line_smells_filter (fp : String) :
    ∀ (lines : List String) (n i : Nat) (h : i < lines.length),
      (long_line_smells fp n lines).filter
          (fun s => s.smell_type == "long_line" && s.line_number == n + i)
        = if (lines.get ⟨i, h⟩).length > 120
          then [long_line_smell fp (n + i) (lines.get ⟨i, h⟩).length] else [] := by
  intro lines
  induction lines with
  | nil => intro n i h; simp at h
  | cons line rest ih =>
    intro n i h
    cases i with
    | zero =>
      have hrest : (long_line_smells fp (n + 1) rest).filter
          (fun s => s.smell_type == "long_line" && s.line_number == n + 0) = [] := by
        rw [List.filter_eq_nil_iff]
        intro s hs
        obtain ⟨-, h2, -, -⟩ := long_line_smells_shape fp rest (n + 1) s hs
        simp only [Bool.and_eq_true, beq_iff_eq]
        omega
      by_cases hc : line.length > 120
      · simp only [long_line_smells, hc, if_true, List.filter_append, hrest,
          List.append_nil, List.get, List.filter]
        simp [long_line_smell, hc]
      · simp only [long_line_smells, hc, if_false, List.nil_append, hrest,
          Bool.false_eq_true, List.get]
    | succ j =>
      have hn : n + (j + 1) = (n + 1) + j := by omega
      have hj : j < rest.length := by simpa using h
      have hhead : (if line.length > 120 then [long_line_smell fp n line.length] else []).filter
          (fun s => s.smell_type == "long_line" && s.line_number == n + (j + 1)) = [] := by
        rw [List.filter_eq_nil_iff]
        intro s hs
        by_cases hc : line.length > 120
        · simp only [hc, if_true, List.mem_singleton] at hs
          subst hs
          simp only [long_line_smell, Bool.and_eq_true, beq_iff_eq]
          omega
        · simp [hc] at hs
      simp only [long_line_smells, List.filter_append, hhead, List.nil_append]
      rw [hn]
      exact ih (n + 1) j hj

/-- Claim C5: the textual analyzer emits exactly one `large_file` finding,
at line 1 with severity medium and confidence 0.8 carrying the line count,
precisely when the line count exceeds 500; a 501-line file yields exactly
one and a 500-line file yields none. -/
theorem c5_large_file :
    (∀ (fp : String) (lines : List String),
      (analyze_general_patterns fp lines).countP (fun s => s.smell_type == "large_file")
        = if lines.length > 500 then 1 else 0)
    ∧ (∀ (fp : String) (lines : List String), lines.length > 500 →
        large_file_smell fp lines.length ∈ analyze_general_patterns fp lines)
    ∧ (∀ (fp : String) (n : Nat),
        (large_file_smell fp n).line_number = 1
        ∧ (large_file_smell fp n).severity = .medium
        ∧ (large_file_smell fp n).confidence_score = 0.8
        ∧ (large_file_smell fp n).description = "File has " ++ toString n ++ " lines (>500)")
    ∧ (analyze_general_patterns "a.js" (List.replicate 501 "x")).countP
        (fun s => s.smell_type == "large_file") = 1
    ∧ (analyze_general_patterns "a.js" (List.replicate 500 "x")).countP
        (fun s => s.smell_type == "large_file") = 0 := by
  have hcount : ∀ (fp : String) (lines : List String),
      (analyze_general_patterns fp lines).countP (fun s => s.smell_type == "large_file")
        = if lines.length > 500 then 1 else 0 := by
    intro fp lines
    have hdebt : (debt_comment_smells fp 1 lines).countP
        (fun s => s.smell_type == "large_file") = 0 := by
      rw [List.countP_eq_zero]
      intro s hs
      obtain ⟨h1, -, -, -⟩ := debt_smells_shape fp lines 1 s hs
      simp [h1]
    have hlong : (long_line_smells fp 1 lines).countP
        (fun s => s.smell_type == "large_file") = 0 := by
      rw [List.countP_eq_zero]
      intro s hs
      obtain ⟨h1, -, -, -⟩ := long_line_smells_shape fp lines 1 s hs
      simp [h1]
    simp only [analyze_general_patterns, List.countP_append, hdebt, hlong, Nat.add_zero]
    by_cases hc : lines.length > 500
    · simp [large_file_check, hc, large_file_smell]
    · simp [large_file_check, hc]
  refine ⟨hcount, ?_, ?_, ?_, ?_⟩
  · intro fp lines hl
    simp only [analyze_general_patterns, List.mem_append]
    exact Or.inl (Or.inl (by simp [large_file_check, hl]))
  · intro fp n
    exact ⟨rfl, rfl, rfl, rfl⟩
  · rw [hcount, List.length_replicate]; norm_num
  · rw [hcount, List.length_replicate]; norm_num

/-- Instantiation of `c5_large_file` at a concrete 501-line file. -/
theorem c5_large_file_witness :
    large_file_smell "a.js" 501 ∈ analyze_general_patterns "a.js" (List.replicate 501 "x") := by
  have h := c5_large_file.2.1 "a.js" (List.replicate 501 "x")
    (by rw [List.length_replicate]; norm_num)
  simpa only [List.length_replicate] using h

/-- Claim C6: for every line, the textual analyzer emits exactly one
`technical_debt_comment` finding at that line (severity low, confidence
0.6, trimmed line text in the description) when the line matches the
case-insensitive debt-marker pattern and none otherwise, and the
`long_line` findings at the same line are determined solely by the line
length, independent of the debt-marker rule. -/
theorem c6_debt_comment :
    (∀ (fp : String) (lines : List String) (i : Nat) (h : i < lines.length),
      (analyze_general_patterns fp lines).filter
          (fun s => s.smell_type == "technical_debt_comment" && s.line_number == i + 1)
        = if has_debt_marker (lines.get ⟨i, h⟩)
          then [technical_debt_smell fp (i + 1) (lines.get ⟨i, h⟩)] else [])
    ∧ (∀ (fp : String) (lines : List String) (i : Nat) (h : i < lines.length),
      (analyze_general_patterns fp lines).filter
          (fun s => s.smell_type == "long_line" && s.line_number == i + 1)
        = if (lines.get ⟨i, h⟩).length > 120
          then [long_line_smell fp (i + 1) (lines.get ⟨i, h⟩).length] else [])
    ∧ (∀ (fp : String) (k : Nat) (line : String),
        (technical_debt_smell fp k line).severity = .low
        ∧ (technical_debt_smell fp k line).confidence_score = 0.6
        ∧ (technical_debt_smell fp k line).line_number = k
        ∧ (technical_debt_smell fp k line).description
            = "Technical debt marker: " ++ py_strip line) := by
  refine ⟨?_, ?_, fun fp k line => ⟨rfl, rfl, rfl, rfl⟩⟩
  · intro fp lines i h
    have hlarge : (large_file_check fp lines).filter
        (fun s => s.smell_type == "technical_debt_comment" && s.line_number == i + 1) = [] := by
      rw [List.filter_eq_nil_iff]
      intro s hs
      obtain ⟨rfl, -⟩ := large_file_check_shape fp lines s hs
      simp [large_file_smell]
    have hlong : (long_line_smells fp 1 lines).filter
        (fun s => s.smell_type == "technical_debt_comment" && s.line_number == i + 1) = [] := by
      rw [List.filter_eq_nil_iff]
      intro s hs
      obtain ⟨h1, -, -, -⟩ := long_line_smells_shape fp lines 1 s hs
      simp [h1]
    have hmid := debt_smells_filter fp lines 1 i h
    simp only [analyze_general_patterns, List.filter_append, hlarge, hlong,
      List.nil_append, List.append_nil]
    rw [show (1 : Nat) + i = i + 1 by omega] at hmid
    exact hmid
  · intro fp lines i h
    have hlarge : (large_file_check fp lines).filter
        (fun s => s.smell_type == "long_line" && s.line_number == i + 1) = [] := by
      rw [List.filter_eq_nil_iff]
      intro s hs
      obtain ⟨rfl, -⟩ := large_file_check_shape fp lines s hs
      simp [large_file_smell]
    have hdebt : (debt_comment_smells fp 1 lines).filter
        (fun s => s.smell_type == "long_line" && s.line_number == i + 1) = [] := by
      rw [List.filter_eq_nil_iff]
      intro s hs
      obtain ⟨h1, -, -, -⟩ := debt_smells_shape fp lines 1 s hs
      simp [h1]
    have hmid := long_line_smells_filter fp lines 1 i h
    simp only [analyze_general_patterns, List.filter_append, hlarge, hdebt,
      List.nil_append, List.append_nil]
    rw [show (1 : Nat) + i = i + 1 by omega] at hmid
    exact hmid

/-- Instantiation of `c6_debt_comment` at a concrete file: the line
" x ToDo y " (which is also 121 characters long in the second test)
yields exactly one debt-comment finding. -/
theorem c6_debt_comment_witness :
    (analyze_general_patterns "a.txt" ["ok line", " x ToDo y "]).filter
        (fun s => s.smell_type == "technical_debt_comment" && s.line_number == 1 + 1)
      = [technical_debt_smell "a.txt" 2 " x ToDo y "] := by
  have h := c6_debt_comment.1 "a.txt" ["ok line", " x ToDo y "] 1 (by simp)
  rw [h]
  simp only [List.get]
  rw [if_pos (by decide)]

/-! ### Structural analyzer (`_analyze_python_file`)

`PyStmt` embeds the Python statement shapes the analyzer inspects:
function definitions (`ast.FunctionDef`, carrying the declaration line,
the name, the positional-parameter count `len(node.args.args)` and the
body), the compound statements `ast.If`/`ast.For`/`ast.While` (body and
`orelse` branch), `ast.With` (body) and `ast.Try` (body, handler bodies,
`orelse`, `finalbody`), and a catch-all `simple` for statements without
nested statement lists.  `ast.iter_child_nodes` of a `Try` yields the
`ExceptHandler` nodes themselves, which are not in the qualifying tuple of
`_calculate_nesting_depth`, so handler bodies never contribute to nesting
depth; `ast.walk`, by contrast, does descend into them. -/

inductive PyStmt where
  | functionDef (lineno : Nat) (name : String) (args : Nat) (body : List PyStmt)
  | ifStmt (lineno : Nat) (body : List PyStmt) (orelse : List PyStmt)
  | forStmt (lineno : Nat) (body : List PyStmt) (orelse : List PyStmt)
  | whileStmt (lineno : Nat) (body : List PyStmt) (orelse : List PyStmt)
  | withStmt (lineno : Nat) (body : List PyStmt)
  | tryStmt (lineno : Nat) (body : List PyStmt) (handlers : List (List PyStmt))
      (orelse : List PyStmt) (finalbody : List PyStmt)
  | simple (lineno : Nat)
deriving Repr

/-- The `lineno` attribute of a statement node. -/
def PyStmt.lineno : PyStmt → Nat
  | .functionDef l _ _ _ => l
  | .ifStmt l _ _ => l
  | .forStmt l _ _ => l
  | .whileStmt l _ _ => l
  | .withStmt l _ => l
  | .tryStmt l _ _ _ _ => l
  | .simple l => l

/-- `isinstance(node, (ast.If, ast.For, ast.While, ast.With, ast.Try))`:
the qualifying tuple of `_calculate_nesting_depth`. -/
def is_nesting_node : PyStmt → Bool
  | .ifStmt .. | .forStmt .. | .whileStmt .. | .withStmt .. | .tryStmt .. => true
  | _ => false

/-- `isinstance(node, (ast.If, ast.For, ast.While))`: the node kinds that
trigger `deep_nesting` emission. -/
def is_branch_node : PyStmt → Bool
  | .ifStmt .. | .forStmt .. | .whileStmt .. => true
  | _ => false

mutual
/-- `CodeAnalyzer._calculate_nesting_depth(node, current_depth)`:
`max_depth` starts at `current_depth`; every qualifying child
(if/for/while/with/try) is recursed into at `current_depth + 1` and the
maximum of the results is returned. -/
def calculate_nesting_depth : PyStmt → Nat → Nat
  | .functionDef _ _ _ body, d => depth_fold body d
  | .ifStmt _ body orelse, d => max (depth_fold body d) (depth_fold orelse d)
  | .forStmt _ body orelse, d => max (depth_fold body d) (depth_fold orelse d)
  | .whileStmt _ body orelse, d => max (depth_fold body d) (depth_fold orelse d)
  | .withStmt _ body, d => depth_fold body d
  | .tryStmt _ body _ orelse finalbody, d =>
      max (depth_fold body d) (max (depth_fold orelse d) (depth_fold finalbody d))
  | .simple _, d => d

/-- The loop of `_calculate_nesting_depth` over a child list. -/
def depth_fold : List PyStmt → Nat → Nat
  | [], d => d
  | c :: rest, d =>
      max (if is_nesting_node c then calculate_nesting_depth c (d + 1) else d)
        (depth_fold rest d)
end

mutual
/-- `ast.walk`: the node itself followed by all its descendants (the source
enumerates breadth-first; the findings derived from the enumeration are
compared only as memberships and counts, which are order-insensitive). -/
def walk_stmt : PyStmt → List PyStmt
  | s@(.functionDef _ _ _ body) => s :: walk_list body
  | s@(.ifStmt _ body orelse) => s :: (walk_list body ++ walk_list orelse)
  | s@(.forStmt _ body orelse) => s :: (walk_list body ++ walk_list orelse)
  | s@(.whileStmt _ body orelse) => s :: (walk_list body ++ walk_list orelse)
  | s@(.withStmt _ body) => s :: walk_list body
  | s@(.tryStmt _ body handlers orelse finalbody) =>
      s :: (walk_list body ++ walk_handlers handlers ++ walk_list orelse
        ++ walk_list finalbody)
  | s@(.simple _) => [s]

/-- `ast.walk` over a statement list. -/
def walk_list : List PyStmt → List PyStmt
  | [] => []
  | s :: rest => walk_stmt s ++ walk_list rest

/-- `ast.walk` over the bodies of the exception handlers of a `Try`. -/
def walk_handlers : List (List PyStmt) → List PyStmt
  | [] => []
  | h :: rest => walk_list h ++ walk_handlers rest
end

/-- The `long_function` finding of `_analyze_python_file`. -/
def long_function_smell (fp : String) (lineno : Nat) (name : String) (count : Nat) :
    CodeSmell :=
  { file_path := fp, line_number := lineno, smell_type := "long_function",
    description := "Function " ++ name ++ " has " ++ toString count ++ " lines (>20)",
    severity := .medium,
    suggested_fix := "Consider breaking into smaller functions",
    confidence_score := 0.8 }

/-- The `too_many_parameters` finding of `_analyze_python_file`. -/
def too_many_parameters_smell (fp : String) (lineno : Nat) (name : String)
    (count : Nat) : CodeSmell :=
  { file_path := fp, line_number := lineno, smell_type := "too_many_parameters",
    description := "Function " ++ name ++ " has " ++ toString count ++ " parameters (>5)",
    severity := .high,
    suggested_fix := "Use dataclasses or configuration objects",
    confidence_score := 0.9 }

/-- The `deep_nesting` finding of `_analyze_python_file`. -/
def deep_nesting_smell (fp : String) (lineno : Nat) (depth : Nat) : CodeSmell :=
  { file_path := fp, line_number := lineno, smell_type := "deep_nesting",
    description := "Code block nested " ++ toString depth ++ " levels deep",
    severity := .high,
    suggested_fix := "Extract methods or use early returns",
    confidence_score := 0.7 }

/-- The `syntax_error` finding emitted when `ast.parse` raises. -/
def syn_error_smell (fp : String) : CodeSmell :=
  { file_path := fp, line_number := 1, smell_type := "syntax_error",
    description := "File contains syntax errors",
    severity := .critical,
    suggested_fix := "Fix syntax errors before proceeding",
    confidence_score := 1 }

/-- The long-function check of the walk loop: a `FunctionDef` whose body
holds more than 20 statements. -/
def long_function_check (fp : String) : PyStmt → List CodeSmell
  | .functionDef lineno name _ body =>
      if body.length > 20 then [long_function_smell fp lineno name body.length] else []
  | _ => []

/-- The parameter-count check of the walk loop: a `FunctionDef` with more
than 5 positional parameters. -/
def param_count_check (fp : String) : PyStmt → List CodeSmell
  | .functionDef lineno name args _ =>
      if args > 5 then [too_many_parameters_smell fp lineno name args] else []
  | _ => []

/-- The nesting check of the walk loop: an `If`/`For`/`While` node whose
nesting depth exceeds 3. -/
def nesting_check (fp : String) (node : PyStmt) : List CodeSmell :=
  if is_branch_node node then
    if calculate_nesting_depth node 0 > 3 then
      [deep_nesting_smell fp node.lineno (calculate_nesting_depth node 0)]
    else []
  else []

/-- One iteration of the `for node in ast.walk(tree)` loop of
`_analyze_python_file`: the three checks in source order. -/
def node_smells (fp : String) (node : PyStmt) : List CodeSmell :=
  long_function_check fp node ++ param_count_check fp node ++ nesting_check fp node

/-- `CodeAnalyzer._analyze_python_file`.  The outcome of `ast.parse` is the
`Option` input: `some tree` when the file parses (the walk loop runs over
the tree) and `none` when `ast.parse` raises `SyntaxError` (the loop never
starts and the single `syntax_error` finding is appended). -/
def analyze_python_file (fp : String) (parsed : Option (List PyStmt)) :
    List CodeSmell :=
  match parsed with
  | some tree => (walk_list tree).flatMap (node_smells fp)
  | none => [syn_error_smell fp]

/-- A source file as `_analyze_file` sees it: the path, its extension
(`file_path.suffix`), the content lines and, for the
structural pass, the `ast.parse` outcome of the content. -/
structure SourceFile where
  file_path : String
  suffix : String
  lines : List String
  parsed : Option (List PyStmt)

/-- `CodeAnalyzer._analyze_file`: Python-specific analysis only for the
`.py` extension, followed by the general textual analysis for every file. -/
def analyze_file (f : SourceFile) : List CodeSmell :=
  (if f.suffix == ".py" then analyze_python_file f.file_path f.parsed else [])
    ++ analyze_general_patterns f.file_path f.lines

/-- Every finding of one walk-loop iteration is a long-function or
parameter-count finding of a `FunctionDef`, or a deep-nesting finding of an
`If`/`For`/`While` whose depth exceeds 3. -/
theorem node_smells_cases (fp : String) (node : PyStmt) (s : CodeSmell)
    (hs : s ∈ node_smells fp node) :
    (∃ lineno name args body, node = .functionDef lineno name args body ∧
        ((body.length > 20 ∧ s = long_function_smell fp lineno name body.length)
          ∨ (args > 5 ∧ s = too_many_parameters_smell fp lineno name args)))
    ∨ (is_branch_node node = true ∧ calculate_nesting_depth node 0 > 3 ∧
        s = deep_nesting_smell fp node.lineno (calculate_nesting_depth node 0)) := by
  cases node with
  | functionDef lineno name args body =>
    simp only [node_smells, List.mem_append, long_function_check, param_count_check,
      nesting_check, is_branch_node, Bool.false_eq_true, if_false,
      List.not_mem_nil, or_false] at hs
    rcases hs with h | h
    · by_cases hc : body.length > 20
      · simp only [hc, if_true, List.mem_singleton] at h
        exact Or.inl ⟨lineno, name, args, body, rfl, Or.inl ⟨hc, h⟩⟩
      · simp [hc] at h
    · by_cases hc : args > 5
      · simp only [hc, if_true, List.mem_singleton] at h
        exact Or.inl ⟨lineno, name, args, body, rfl, Or.inr ⟨hc, h⟩⟩
      · simp [hc] at h
  | ifStmt lineno body orelse =>
    simp only [node_smells, List.mem_append, long_function_check, param_count_check,
      nesting_check, is_branch_node, if_true, List.not_mem_nil, false_or] at hs
    by_cases hd : calculate_nesting_depth (.ifStmt lineno body orelse) 0 > 3
    · simp only [hd, if_true, List.mem_singleton] at hs
      exact Or.inr ⟨rfl, hd, hs⟩
    · simp [hd] at hs
  | forStmt lineno body orelse =>
    simp only [node_smells, List.mem_append, long_function_check, param_count_check,
      nesting_check, is_branch_node, if_true, List.not_mem_nil, false_or] at hs
    by_cases hd : calculate_nesting_depth (.forStmt lineno body orelse) 0 > 3
    · simp only [hd, if_true, List.mem_singleton] at hs
      exact Or.inr ⟨rfl, hd, hs⟩
    · simp [hd] at hs
  | whileStmt lineno body orelse =>
    simp only [node_smells, List.mem_append, long_function_check, param_count_check,
      nesting_check, is_branch_node, if_true, List.not_mem_nil, false_or] at hs
    by_cases hd : calculate_nesting_depth (.whileStmt lineno body orelse) 0 > 3
    · simp only [hd, if_true, List.mem_singleton] at hs
      exact Or.inr ⟨rfl, hd, hs⟩
    · simp [hd] at hs
  | withStmt lineno body =>
    simp [node_smells, long_function_check, param_count_check, nesting_check,
      is_branch_node] at hs
  | tryStmt lineno body handlers orelse finalbody =>
    simp [node_smells, long_function_check, param_count_check, nesting_check,
      is_branch_node] at hs
  | simple lineno =>
    simp [node_smells, long_function_check, param_count_check, nesting_check,
      is_branch_node] at hs

/-- A function with exactly 21 one-statement body entries. -/
def fn21 : PyStmt := .functionDef 1 "f" 0 (List.replicate 21 (.simple 2))

/-- A function with exactly 20 one-statement body entries. -/
def fn20 : PyStmt := .functionDef 1 "f" 0 (List.replicate 20 (.simple 2))

/-- A chain of `n` nested `if` statements (the outermost has `lineno` `n`). -/
def if_chain : Nat → PyStmt
  | 0 => .simple 0
  | n + 1 => .ifStmt (n + 1) [if_chain n] []

/-- A chain of `n` nested `with` statements (the outermost has `lineno` `n`). -/
def with_chain : Nat → PyStmt
  | 0 => .simple 0
  | n + 1 => .withStmt (n + 1) [with_chain n]

/-- An `if` containing four nested `with` statements: nesting depth 4,
contributed entirely by `with` blocks. -/
def if_with4 : PyStmt :=
  .ifStmt 1 [.withStmt 2 [.withStmt 3 [.withStmt 4 [.withStmt 5 [.simple 6]]]]] []

/-- Claim C2: every `FunctionDef` in a parsed tree whose body holds more
than 20 statements yields a `long_function` finding at its declaration
line (severity medium, confidence 0.8, count in the description); a body
of exactly 21 statements triggers it and one of exactly 20 does not. -/
theorem c2_long_function :
    (∀ (fp : String) (tree : List PyStmt) (lineno : Nat) (name : String)
        (args : Nat) (body : List PyStmt),
      PyStmt.functionDef lineno name args body ∈ walk_list tree →
      body.length > 20 →
      long_function_smell fp lineno name body.length ∈ analyze_python_file fp (some tree))
    ∧ (∀ (fp : String) (l : Nat) (nm : String) (c : Nat),
        (long_function_smell fp l nm c).severity = .medium
        ∧ (long_function_smell fp l nm c).confidence_score = 0.8
        ∧ (long_function_smell fp l nm c).smell_type = "long_function"
        ∧ (long_function_smell fp l nm c).line_number = l
        ∧ (long_function_smell fp l nm c).description
            = "Function " ++ nm ++ " has " ++ toString c ++ " lines (>20)")
    ∧ analyze_python_file "f.py" (some [fn21]) = [long_function_smell "f.py" 1 "f" 21]
    ∧ analyze_python_file "f.py" (some [fn20]) = [] := by
  refine ⟨?_, fun fp l nm c => ⟨rfl, rfl, rfl, rfl, rfl⟩, by rfl, by rfl⟩
  intro fp tree lineno name args body hmem h20
  simp only [analyze_python_file, List.mem_flatMap]
  refine ⟨.functionDef lineno name args body, hmem, ?_⟩
  simp only [node_smells, List.mem_append, long_function_check, h20, if_true]
  exact Or.inl (Or.inl (List.mem_singleton.mpr rfl))

/-- Instantiation of `c2_long_function` at the 21-statement function. -/
theorem c2_long_function_witness :
    long_function_smell "f.py" 1 "f" 21 ∈ analyze_python_file "f.py" (some [fn21]) := by
  have h := c2_long_function.1 "f.py" [fn21] 1 "f" 0 (List.replicate 21 (.simple 2))
    (List.mem_cons_self _ _) (by simp)
  simpa using h

/-- Claim C3: an `If`/`For`/`While` node of a parsed tree is reported as
`deep_nesting` (severity high, confidence 0.7, measured depth) exactly
when its nesting depth below the node — where each nested
if/for/while/with/try level adds one, maximised across branches — exceeds
3; every `deep_nesting` finding arises from such a node; a chain of five
`if`s (depth 4) triggers, a chain of four (depth 3) does not, a `with`
chain alone triggers nothing, and `with` blocks under an `if` count
towards its depth. -/
theorem c3_deep_nesting :
    (∀ (fp : String) (tree : List PyStmt) (node : PyStmt),
      node ∈ walk_list tree → is_branch_node node = true →
      calculate_nesting_depth node 0 > 3 →
      deep_nesting_smell fp node.lineno (calculate_nesting_depth node 0)
        ∈ analyze_python_file fp (some tree))
    ∧ (∀ (fp : String) (tree : List PyStmt) (s : CodeSmell),
      s ∈ analyze_python_file fp (some tree) → s.smell_type = "deep_nesting" →
      ∃ node, node ∈ walk_list tree ∧ is_branch_node node = true ∧
        calculate_nesting_depth node 0 > 3 ∧
        s = deep_nesting_smell fp node.lineno (calculate_nesting_depth node 0))
    ∧ (∀ (fp : String) (l d : Nat),
        (deep_nesting_smell fp l d).severity = .high
        ∧ (deep_nesting_smell fp l d).confidence_score = 0.7
        ∧ (deep_nesting_smell fp l d).smell_type = "deep_nesting"
        ∧ (deep_nesting_smell fp l d).description
            = "Code block nested " ++ toString d ++ " levels deep")
    ∧ calculate_nesting_depth (if_chain 5) 0 = 4
    ∧ analyze_python_file "f.py" (some [if_chain 5]) = [deep_nesting_smell "f.py" 5 4]
    ∧ analyze_python_file "f.py" (some [if_chain 4]) = []
    ∧ analyze_python_file "f.py" (some [with_chain 5]) = []
    ∧ calculate_nesting_depth if_with4 0 = 4
    ∧ analyze_python_file "f.py" (some [if_with4]) = [deep_nesting_smell "f.py" 1 4] := by
  refine ⟨?_, ?_, fun fp l d => ⟨rfl, rfl, rfl, rfl⟩,
    by decide, by rfl, by rfl, by rfl, by decide, by rfl⟩
  · intro fp tree node hmem hbranch hdepth
    simp only [analyze_python_file, List.mem_flatMap]
    refine ⟨node, hmem, ?_⟩
    simp only [node_smells, List.mem_append, nesting_check, hbranch, hdepth,
      if_true]
    exact Or.inr (List.mem_singleton.mpr rfl)
  · intro fp tree s hs htype
    simp only [analyze_python_file, List.mem_flatMap] at hs
    obtain ⟨node, hmem, hns⟩ := hs
    rcases node_smells_cases fp node s hns with
      ⟨lineno, name, args, body, rfl, (⟨-, rfl⟩ | ⟨-, rfl⟩)⟩ | ⟨hb, hd, rfl⟩
    · simp [long_function_smell] at htype
    · simp [too_many_parameters_smell] at htype
    · exact ⟨node, hmem, hb, hd, rfl⟩

/-- Instantiation of `c3_deep_nesting` at the five-deep `if` chain. -/
theorem c3_deep_nesting_witness :
    deep_nesting_smell "f.py" (if_chain 5).lineno (calculate_nesting_depth (if_chain 5) 0)
      ∈ analyze_python_file "f.py" (some [if_chain 5]) :=
  c3_deep_nesting.1 "f.py" [if_chain 5] (if_chain 5)
    (List.mem_cons_self _ _) (by decide) (by decide)

/-- Claim C4: when `ast.parse` fails on a `.py` file, per-file analysis is
the single line-1 critical/1.0 `syntax_error` finding followed by the
textual findings: exactly one `syntax_error`, no other structural finding,
and the textual pass unaffected. -/
theorem c4_syn_error :
    ∀ (fp : String) (lines : List String),
      analyze_file ⟨fp, ".py", lines, none⟩
          = syn_error_smell fp :: analyze_general_patterns fp lines
      ∧ (analyze_file ⟨fp, ".py", lines, none⟩).countP
          (fun s => s.smell_type == "syntax_error") = 1
      ∧ (syn_error_smell fp).line_number = 1
      ∧ (syn_error_smell fp).severity = .critical
      ∧ (syn_error_smell fp).confidence_score = 1
      ∧ (∀ s ∈ analyze_file ⟨fp, ".py", lines, none⟩, s ≠ syn_error_smell fp →
          s.smell_type = "large_file" ∨ s.smell_type = "technical_debt_comment"
            ∨ s.smell_type = "long_line") := by
  intro fp lines
  have heq : analyze_file ⟨fp, ".py", lines, none⟩
      = syn_error_smell fp :: analyze_general_patterns fp lines := by
    simp [analyze_file, analyze_python_file]
  have htail : (analyze_general_patterns fp lines).countP
      (fun s => s.smell_type == "syntax_error") = 0 := by
    rw [List.countP_eq_zero]
    intro s hs
    rcases general_patterns_shape fp lines s hs with ⟨h1, -, -⟩ | ⟨h1, -, -⟩ | ⟨h1, -, -⟩ <;>
      simp [h1]
  refine ⟨heq, ?_, rfl, rfl, rfl, ?_⟩
  · rw [heq, List.countP_cons, htail]
    simp [syn_error_smell]
  · intro s hs hne
    rw [heq, List.mem_cons] at hs
    rcases hs with rfl | hs
    · exact absurd rfl hne
    · rcases general_patterns_shape fp lines s hs with ⟨h1, -, -⟩ | ⟨h1, -, -⟩ | ⟨h1, -, -⟩
      · exact Or.inl h1
      · exact Or.inr (Or.inl h1)
      · exact Or.inr (Or.inr h1)

/-- Instantiation of `c4_syn_error` at a concrete unparseable file. -/
theorem c4_syn_error_witness :
    analyze_file ⟨"bad.py", ".py", ["x TODO"], none⟩
        = syn_error_smell "bad.py" :: analyze_general_patterns "bad.py" ["x TODO"]
    ∧ (analyze_file ⟨"bad.py", ".py", ["x TODO"], none⟩).countP
        (fun s => s.smell_type == "syntax_error") = 1 :=
  ⟨(c4_syn_error "bad.py" ["x TODO"]).1, (c4_syn_error "bad.py" ["x TODO"]).2.1⟩

/-- The severity/confidence defaults per finding kind, as fixed by the
emission sites of `_analyze_python_file` and `_analyze_general_patterns`. -/
def kind_defaults (kind : String) : Option (DebtSeverity × ℚ) :=
  if kind = "long_function" then some (.medium, 0.8)
  else if kind = "too_many_parameters" then some (.high, 0.9)
  else if kind = "deep_nesting" then some (.high, 0.7)
  else if kind = "syntax_error" then some (.critical, 1)
  else if kind = "large_file" then some (.medium, 0.8)
  else if kind = "technical_debt_comment" then some (.low, 0.6)
  else if kind = "long_line" then some (.low, 0.9)
  else none

theorem python_file_defaults (fp : String) (parsed : Option (List PyStmt))
    (s : CodeSmell) (hs : s ∈ analyze_python_file fp parsed) :
    kind_defaults s.smell_type = some (s.severity, s.confidence_score) := by
  cases parsed with
  | none =>
    simp only [analyze_python_file, List.mem_singleton] at hs
    subst hs
    rfl
  | some tree =>
    simp only [analyze_python_file, List.mem_flatMap] at hs
    obtain ⟨node, -, hns⟩ := hs
    rcases node_smells_cases fp node s hns with
      ⟨lineno, name, args, body, -, (⟨-, rfl⟩ | ⟨-, rfl⟩)⟩ | ⟨-, -, rfl⟩ <;> rfl

theorem general_patterns_defaults (fp : String) (lines : List String)
    (s : CodeSmell) (hs : s ∈ analyze_general_patterns fp lines) :
    kind_defaults s.smell_type = some (s.severity, s.confidence_score) := by
  rcases general_patterns_shape fp lines s hs with
    ⟨h1, h2, h3⟩ | ⟨h1, h2, h3⟩ | ⟨h1, h2, h3⟩ <;>
    rw [h1, h2, h3] <;> rfl

theorem analyze_file_defaults (f : SourceFile) (s : CodeSmell)
    (hs : s ∈ analyze_file f) :
    kind_defaults s.smell_type = some (s.severity, s.confidence_score) := by
  simp only [analyze_file, List.mem_append] at hs
  rcases hs with h | h
  · by_cases hp : f.suffix == ".py"
    · rw [if_pos hp] at h
      exact python_file_defaults f.file_path f.parsed s h
    · rw [if_neg hp] at h
      simp at h
  · exact general_patterns_defaults f.file_path f.lines s h

/-- Claim C9: severity and confidence of every emitted finding are
functions of its kind, per the fixed table; any two findings of the same
kind, from any inputs, carry equal severity and equal confidence. -/
theorem c9_kind_determines :
    (∀ (f : SourceFile) (s : CodeSmell), s ∈ analyze_file f →
        kind_defaults s.smell_type = some (s.severity, s.confidence_score))
    ∧ (∀ (f₁ f₂ : SourceFile) (s₁ s₂ : CodeSmell),
        s₁ ∈ analyze_file f₁ → s₂ ∈ analyze_file f₂ →
        s₁.smell_type = s₂.smell_type →
        s₁.severity = s₂.severity ∧ s₁.confidence_score = s₂.confidence_score)
    ∧ kind_defaults "long_function" = some (.medium, 0.8)
    ∧ kind_defaults "too_many_parameters" = some (.high, 0.9)
    ∧ kind_defaults "deep_nesting" = some (.high, 0.7)
    ∧ kind_defaults "large_file" = some (.medium, 0.8)
    ∧ kind_defaults "technical_debt_comment" = some (.low, 0.6)
    ∧ kind_defaults "long_line" = some (.low, 0.9)
    ∧ kind_defaults "syntax_error" = some (.critical, 1) := by
  refine ⟨analyze_file_defaults, ?_, rfl, rfl, rfl, rfl, rfl, rfl, rfl⟩
  intro f₁ f₂ s₁ s₂ h₁ h₂ hkind
  have d₁ := analyze_file_defaults f₁ s₁ h₁
  have d₂ := analyze_file_defaults f₂ s₂ h₂
  rw [hkind, d₂] at d₁
  have hpair := (Option.some.inj d₁).symm
  exact ⟨congrArg Prod.fst hpair, congrArg Prod.snd hpair⟩

/-- Instantiation of `c9_kind_determines` at two same-kind findings of
different files. -/
theorem c9_kind_determines_witness :
    (technical_debt_smell "a.txt" 1 "x TODO").severity
        = (technical_debt_smell "b.txt" 2 "y fixme z").severity
    ∧ (technical_debt_smell "a.txt" 1 "x TODO").confidence_score
        = (technical_debt_smell "b.txt" 2 "y fixme z").confidence_score :=
  c9_kind_determines.2.1
    ⟨"a.txt", ".txt", ["x TODO"], none⟩ ⟨"b.txt", ".txt", ["ok", "y fixme z"], none⟩
    (technical_debt_smell "a.txt" 1 "x TODO")
    (technical_debt_smell "b.txt" 2 "y fixme z")
    (List.mem_cons_self _ _)
    (List.mem_cons_self _ _)
    rfl

/-- Claim C10: a file whose extension is not `.py` only ever receives
textual finding kinds, never structural ones, whatever its content. -/
theorem c10_non_py_textual_only :
    ∀ f : SourceFile, f.suffix ≠ ".py" →
      ∀ s ∈ analyze_file f,
        s.smell_type = "large_file" ∨ s.smell_type = "technical_debt_comment"
          ∨ s.smell_type = "long_line" := by
  intro f hne s hs
  simp only [analyze_file, List.mem_append] at hs
  rcases hs with h | h
  · rw [if_neg (by simpa using hne)] at h
    simp at h
  · rcases general_patterns_shape f.file_path f.lines s h with
      ⟨h1, -, -⟩ | ⟨h1, -, -⟩ | ⟨h1, -, -⟩
    · exact Or.inl h1
    · exact Or.inr (Or.inl h1)
    · exact Or.inr (Or.inr h1)

/-- Instantiation of `c10_non_py_textual_only` at a `.js` file whose
parse field even holds a 21-statement function: the finding kind is still
textual. -/
theorem c10_non_py_textual_only_witness :
    (technical_debt_smell "a.js" 1 "x TODO").smell_type = "large_file"
    ∨ (technical_debt_smell "a.js" 1 "x TODO").smell_type = "technical_debt_comment"
    ∨ (technical_debt_smell "a.js" 1 "x TODO").smell_type = "long_line" :=
  c10_non_py_textual_only ⟨"a.js", ".js", ["x TODO"], some [fn21]⟩ (by decide)
    (technical_debt_smell "a.js" 1 "x TODO")
    (List.mem_cons_self _ _)

/-! ### History trend analyzer (`GitAnalyzer`)

The analyzer receives the commit lines `hash|author|date|message` parsed
from the log output; repository detection, the subprocess call and the
empty-output early return are outside the embedded core. -/

/-- The `debt_keywords` list of `_count_debt_commits`. -/
def debt_keywords : List String :=
  ["fix", "refactor", "cleanup", "debt", "hack", "workaround", "temp"]

/-- The `dates` set of `_analyze_commit_frequency`: the third `|`-field of
every commit line holding a `|` and at least three fields, without
duplicates. -/
def commit_dates (commits : List String) : List String :=
  (commits.filterMap (fun commit =>
    if commit.toList.contains '|' then
      (let parts := py_split commit '|'
       if parts.length ≥ 3 then some (parts.getD 2 "") else none)
    else none)).dedup

/-- `GitAnalyzer._analyze_commit_frequency`: 0 for no commits, otherwise
total commits divided by the number of distinct dates (at least 1).
Python computes the ratio in floating point; the embedding is the exact
rational, and the two agree at every value compared in this development. -/
def analyze_commit_frequency (commits : List String) : ℚ :=
  if commits.isEmpty then 0
  else (commits.length : ℚ) / (max (commit_dates commits).length 1 : ℚ)

/-- `GitAnalyzer._count_debt_commits`: the number of commit lines holding
a `|` whose last `|`-field, lowercased, contains a debt keyword. -/
def count_debt_commits (commits : List String) : Nat :=
  commits.countP (fun commit =>
    if commit.toList.contains '|' then
      debt_keywords.any (fun kw =>
        is_substring kw.toList (py_lower ((py_split commit '|').getLastD "")).toList)
    else false)

/-- The metric-deriving tail of `GitAnalyzer.get_debt_trends`: the
frequency metric when the average commits per day exceeds 10, followed by
the debt-commit metric when the debt-commit count exceeds 20% of the
commit count.  Python evaluates `len(commits) * 0.2` in floating point;
at the integer counts compared in this development the float and the
exact rational agree. -/
def get_debt_trends_of_commits (commits : List String) : List DebtMetric :=
  (if analyze_commit_frequency commits > 10 then
    [{ metric_name := "High Commit Frequency",
       current_value := analyze_commit_frequency commits,
       trend := "increasing", risk_level := .medium,
       impact_description := "Rapid commits may indicate rushed development" }]
  else [])
  ++ (if (count_debt_commits commits : ℚ) > (commits.length : ℚ) * 0.2 then
    [{ metric_name := "Technical Debt Commits",
       current_value := (count_debt_commits commits : ℚ),
       trend := "concerning", risk_level := .high,
       impact_description :=
         "High ratio of fix/refactor commits suggests accumulating debt" }]
  else [])

/-- Fifteen commits over three distinct dates, two with "fix" in the
message. -/
def commits15_2 : List String :=
  ["c01|alice|2024-01-01|add feature one",
   "c02|alice|2024-01-01|add feature two",
   "c03|alice|2024-01-01|add feature three",
   "c04|alice|2024-01-01|add feature four",
   "c05|alice|2024-01-01|add feature five",
   "c06|bob|2024-01-02|add feature six",
   "c07|bob|2024-01-02|add feature seven",
   "c08|bob|2024-01-02|add feature eight",
   "c09|bob|2024-01-02|add feature nine",
   "c10|bob|2024-01-02|add feature ten",
   "c11|carol|2024-01-03|add feature eleven",
   "c12|carol|2024-01-03|add feature twelve",
   "c13|carol|2024-01-03|add feature thirteen",
   "c14|carol|2024-01-03|fix bug one",
   "c15|carol|2024-01-03|fix bug two"]

/-- The same fifteen commits with four "fix" messages instead of two. -/
def commits15_4 : List String :=
  ["c01|alice|2024-01-01|add feature one",
   "c02|alice|2024-01-01|add feature two",
   "c03|alice|2024-01-01|add feature three",
   "c04|alice|2024-01-01|add feature four",
   "c05|alice|2024-01-01|add feature five",
   "c06|bob|2024-01-02|add feature six",
   "c07|bob|2024-01-02|add feature seven",
   "c08|bob|2024-01-02|add feature eight",
   "c09|bob|2024-01-02|add feature nine",
   "c10|bob|2024-01-02|add feature ten",
   "c11|carol|2024-01-03|add feature eleven",
   "c12|carol|2024-01-03|fix bug three",
   "c13|carol|2024-01-03|fix bug four",
   "c14|carol|2024-01-03|fix bug one",
   "c15|carol|2024-01-03|fix bug two"]

/-- Claim C7: for 15 commits over 3 dates with 2 "fix" messages no metric
is emitted (frequency 5 is not above 10 and 2 is not above 20% of 15);
with 4 "fix" messages exactly the Technical Debt Commits metric (value 4,
risk high) is emitted. -/
theorem c7_debt_trends :
    analyze_commit_frequency commits15_2 = 5
    ∧ count_debt_commits commits15_2 = 2
    ∧ get_debt_trends_of_commits commits15_2 = []
    ∧ analyze_commit_frequency commits15_4 = 5
    ∧ count_debt_commits commits15_4 = 4
    ∧ get_debt_trends_of_commits commits15_4 =
        [{ metric_name := "Technical Debt Commits", current_value := 4,
           trend := "concerning", risk_level := .high,
           impact_description :=
             "High ratio of fix/refactor commits suggests accumulating debt" }] := by
  have hlen2 : commits15_2.length = 15 := rfl
  have hlen4 : commits15_4.length = 15 := rfl
  have hdates2 : (commit_dates commits15_2).length = 3 := by rfl
  have hdates4 : (commit_dates commits15_4).length = 3 := by rfl
  have hcnt2 : count_debt_commits commits15_2 = 2 := by rfl
  have hcnt4 : count_debt_commits commits15_4 = 4 := by rfl
  have hemp2 : commits15_2.isEmpty = false := rfl
  have hemp4 : commits15_4.isEmpty = false := rfl
  have hfreq2 : analyze_commit_frequency commits15_2 = 5 := by
    unfold analyze_commit_frequency
    rw [hemp2, hlen2, hdates2]
    norm_num
  have hfreq4 : analyze_commit_frequency commits15_4 = 5 := by
    unfold analyze_commit_frequency
    rw [hemp4, hlen4, hdates4]
    norm_num
  refine ⟨hfreq2, hcnt2, ?_, hfreq4, hcnt4, ?_⟩
  · unfold get_debt_trends_of_commits
    rw [hfreq2, hcnt2, hlen2]
    rw [if_neg (by norm_num), if_neg (by norm_num)]
    rfl
  · unfold get_debt_trends_of_commits
    rw [hfreq4, hcnt4, hlen4]
    rw [if_neg (by norm_num), if_pos (by norm_num)]
    norm_num

end CodeDebtDetective
